import Mathlib

/-!
Verification development for the Birbank banking connector
(src/models/account_online_link.py).  The Python module is shallowly
embedded: Odoo records become Lean structures, the database becomes
explicit lists threaded through the functions, datetimes become `Nat`
seconds, and network calls become explicit outcome parameters.  Python
truthiness of optional string fields is modelled by `String` with `""`
standing for a falsy value (absent, `None` or the empty string).
-/

/-- Status values of the `state` selection field on the
`account.online.link` record. -/
inductive LinkStatus
  | draft
  | disconnected
  | connected
  | error
  deriving DecidableEq, Repr

/-- An in-flight transaction dict as produced by
`_fetch_odoo_fin_transactions`: `online_transaction_identifier` is a
`String` with `""` for a falsy value. -/
structure Txn where
  ident : String
  date : Nat
  amount : Int
  paymentRef : String
  partnerName : String
  deriving DecidableEq, Repr

/-- A persisted `account.bank.statement.line` record of the host system. -/
structure StatementLine where
  journalId : Nat
  ident : String
  date : Nat
  amount : Int
  paymentRef : String
  partnerName : String
  deriving DecidableEq, Repr

/-- The creation values built from a transaction inside
`_custom_create_lines` (the `vals` dict at lines 509-520). -/
def txnToLine (j : Nat) (t : Txn) : StatementLine :=
  { journalId := j, ident := t.ident, date := t.date, amount := t.amount,
    paymentRef := t.paymentRef, partnerName := t.partnerName }

/-- `incoming_ids`: the identifiers of incoming transactions whose
`online_transaction_identifier` is truthy (line 487). -/
def incomingIds (txs : List Txn) : List String :=
  (txs.filter (fun t => t.ident != "")).map (fun t => t.ident)

/-- The batched duplicate search (lines 492-496): identifiers of
statement lines already persisted in journal `j` whose identifier is in
the incoming identifier list. -/
def existingIdsIn (db : List StatementLine) (j : Nat) (inc : List String) : List String :=
  (db.filter (fun l => l.journalId == j && inc.contains l.ident)).map (fun l => l.ident)

/-- `existing_ids` as computed by `_custom_create_lines`: the duplicate
search runs only when `incoming_ids` is non-empty (lines 490-498). -/
def existingIdsFor (db : List StatementLine) (j : Nat) (txs : List Txn) : List String :=
  let inc := incomingIds txs
  if inc.isEmpty then [] else existingIdsIn db j inc

/-- The skip test of the creation loop (lines 501-505): a transaction is
kept unless its identifier is truthy and already persisted. -/
def keepTxn (existing : List String) (t : Txn) : Bool :=
  !(t.ident != "" && existing.contains t.ident)

/-- The `to_create` list of `_custom_create_lines` (lines 500-520),
already mapped to statement-line values for journal `j`. -/
def toCreateLines (db : List StatementLine) (j : Nat) (txs : List Txn) : List StatementLine :=
  (txs.filter (keepTxn (existingIdsFor db j txs))).map (txnToLine j)

/-- Shallow embedding of `AccountOnlineAccount._custom_create_lines`
(lines 464-525).  `journalRes` is the outcome of the journal resolution
chain (steps at lines 472-484); `dbWriteFails` models the host
collaborator `StatementLine.create` raising.  On success the result is
the pair (created records, database after the call); creation appends to
the database.  The empty `to_create` case returns without calling
`create` (lines 523-525). -/
def customCreateLines (db : List StatementLine) (journalRes : Option Nat)
    (dbWriteFails : Bool) (accName : String) (txs : List Txn) :
    Except String (List StatementLine × List StatementLine) :=
  match journalRes with
  | none => Except.error ("No Journal linked to account " ++ accName ++ ". Cannot save transactions.")
  | some j =>
    let toCreate := toCreateLines db j txs
    if toCreate.isEmpty then Except.ok ([], db)
    else if dbWriteFails then Except.error "Database Write Failed"
    else Except.ok (toCreate, db ++ toCreate)

/-- The set (as a list) of persisted external transaction identifiers of
journal `j`: truthy identifiers of the statement lines in that journal. -/
def persistedIdents (db : List StatementLine) (j : Nat) : List String :=
  ((db.filter (fun l => l.journalId == j)).map (fun l => l.ident)).filter (fun s => s != "")

/-! ## Credential / token manager (`_get_birbank_token`, lines 312-338) -/

/-- The token cache persisted on the connection record
(`birbank_jwt_token`, `birbank_token_expiry`).  The token is a `String`
with `""` falsy; the expiry a datetime in seconds, `none` when unset. -/
structure TokenState where
  token : String
  expiry : Option Nat
  deriving DecidableEq, Repr

/-- Seconds in `m` minutes, mirroring `timedelta(minutes=m)`. -/
def minutes (m : Nat) : Nat := m * 60

/-- The cached-token guard of line 314: token truthy, expiry set and
strictly later than `now + 5 minutes`. -/
def cachedTokenValid (st : TokenState) (now : Nat) : Bool :=
  st.token != "" &&
    (match st.expiry with
     | none => false
     | some e => decide (now + minutes 5 < e))

/-- Parsed body of the login response: `responseData` may be absent, and
its `jwttoken` field may be absent. -/
structure LoginBody where
  jwttoken : Option String
  deriving DecidableEq, Repr

/-- Outcome of the `POST /login` round-trip: either an HTTP success with
a parsed JSON body, or a transport / `raise_for_status` failure whose
message is what `_parse_error` would produce. -/
inductive LoginOutcome
  | response (responseData : Option LoginBody)
  | failure (msg : String)
  deriving DecidableEq, Repr

/-- Result of `_get_birbank_token`: whether a login request was issued,
and either the new persisted token state paired with the returned token,
or the message of the raised `UserError`. -/
structure TokenResult where
  loginIssued : Bool
  result : Except String (TokenState × String)

/-- Shallow embedding of `_get_birbank_token` (lines 312-338).  `now` is
captured once at entry; on a successful login the token is persisted
with expiry `now + 50 minutes` and returned; a transport failure or a
falsy `responseData.jwttoken` raises (`Except.error`). -/
def getBirbankToken (st : TokenState) (now : Nat) (forceRefresh : Bool)
    (login : LoginOutcome) : TokenResult :=
  if !forceRefresh && cachedTokenValid st now then
    { loginIssued := false, result := Except.ok (st, st.token) }
  else
    { loginIssued := true,
      result :=
        match login with
        | LoginOutcome.failure msg => Except.error ("Auth Error: " ++ msg)
        | LoginOutcome.response rd =>
          match (rd.getD { jwttoken := none }).jwttoken with
          | none => Except.error "Auth Error: No token returned."
          | some tok =>
            if tok = "" then Except.error "Auth Error: No token returned."
            else
              Except.ok ({ token := tok, expiry := some (now + minutes 50) }, tok) }

/-! ## Account reconciler (`action_initialize_connection`, lines 210-277) -/

/-- An `account.online.account` record under the connection.  `recId` is
the database id; `onlineIdentifier` is a `String` with `""` falsy. -/
structure OnlineAccountRec where
  recId : Nat
  onlineIdentifier : String
  name : String
  balance : Int
  accountNumber : String
  currencyCode : String
  deriving DecidableEq, Repr

/-- One entry of the list returned by `_fetch_odoo_fin_accounts`
(lines 356-361). -/
structure AccData where
  onlineIdentifier : String
  name : String
  balance : Int
  currencyCode : String
  deriving DecidableEq, Repr

/-- The `existing_accounts` dict of lines 218-222: it holds only records
with a truthy identifier, later entries winning; a lookup returns the
record keyed by the identifier. -/
def existingAccountsLookup (accounts : List OnlineAccountRec) (i : String) :
    Option OnlineAccountRec :=
  ((accounts.filter (fun a => a.onlineIdentifier != "")).reverse).find?
    (fun a => a.onlineIdentifier == i)

/-- The `vals` write of lines 231-242 applied to an existing record. -/
def applyVals (d : AccData) (a : OnlineAccountRec) : OnlineAccountRec :=
  { a with
    name := d.name, balance := d.balance,
    onlineIdentifier := d.onlineIdentifier, accountNumber := d.onlineIdentifier,
    currencyCode := d.currencyCode }

/-- One iteration of the upsert loop of lines 224-244 over the pair
(records under the connection, next fresh database id).  Entries with a
falsy identifier are skipped (line 227); identifiers found in the
pre-loop dict update that record; the rest create a new record.  The
journal auto-link block (lines 247-255) touches only journal-side links
and is not part of the account-record state. -/
def upsertStep (lookup : String → Option OnlineAccountRec)
    (st : List OnlineAccountRec × Nat) (d : AccData) : List OnlineAccountRec × Nat :=
  if d.onlineIdentifier = "" then st
  else
    match lookup d.onlineIdentifier with
    | some b =>
      (st.1.map (fun a => if a.recId = b.recId then applyVals d a else a), st.2)
    | none =>
      (st.1 ++ [{ recId := st.2, onlineIdentifier := d.onlineIdentifier,
                  name := d.name, balance := d.balance,
                  accountNumber := d.onlineIdentifier,
                  currencyCode := d.currencyCode }], st.2 + 1)

/-- The whole upsert loop: the dict is computed once from the records
present before the loop, exactly as in lines 218-222. -/
def upsertAccounts (accounts : List OnlineAccountRec) (fetched : List AccData)
    (nextId : Nat) : List OnlineAccountRec × Nat :=
  fetched.foldl (upsertStep (existingAccountsLookup accounts)) (accounts, nextId)

/-- Number of records carrying identifier `i`. -/
def countIdent (l : List OnlineAccountRec) (i : String) : Nat :=
  (l.filter (fun a => a.onlineIdentifier == i)).length

/-- Connection state relevant to `action_initialize_connection`. -/
structure InitLinkState where
  status : LinkStatus
  lastSuccessDate : Option Nat
  lastErrorMessage : Option String
  accounts : List OnlineAccountRec
  nextId : Nat
  deriving DecidableEq, Repr

/-- Outcome of `action_initialize_connection`: the success notification,
or the raised blocking `UserError`. -/
inductive InitOutcome
  | notification
  | raisedUserError (msg : String)
  deriving DecidableEq, Repr

/-- Shallow embedding of `action_initialize_connection` (lines 210-277).
`tokenRes` is the outcome of `_get_birbank_token(force_refresh=True)` and
`accountsRes` that of `_fetch_odoo_fin_accounts`, both raising through
`Except.error`.  The `except` block (lines 273-277) writes only
`last_error_message` and re-raises as a `UserError`; it does not touch
the `state` field. -/
def actionInitConnection (link : InitLinkState)
    (tokenRes : Except String String) (accountsRes : Except String (List AccData))
    (now : Nat) : InitLinkState × InitOutcome :=
  match tokenRes with
  | Except.error e =>
    ({ link with lastErrorMessage := some e },
      InitOutcome.raisedUserError ("Connection Failed: " ++ e))
  | Except.ok _ =>
    match accountsRes with
    | Except.error e =>
      ({ link with lastErrorMessage := some e },
        InitOutcome.raisedUserError ("Connection Failed: " ++ e))
    | Except.ok fetched =>
      let upserted := upsertAccounts link.accounts fetched link.nextId
      ({ link with accounts := upserted.1, nextId := upserted.2,
                   status := LinkStatus.connected, lastSuccessDate := some now,
                   lastErrorMessage := none },
        InitOutcome.notification)

/-! ## Transaction ingestion (`action_fetch_transactions`, lines 121-208) -/

/-- Per-account environment for one sync run: `fetchedTxns` is what
`_retrieve_transactions` returns (it catches internally and never
raises), `journalRes` and `dbWriteFails` feed `_custom_create_lines`. -/
structure SyncAccount where
  accId : Nat
  name : String
  fetchedTxns : List Txn
  journalRes : Option Nat
  dbWriteFails : Bool
  deriving DecidableEq, Repr

/-- Connection state relevant to `action_fetch_transactions`, with the
statement-line database threaded through. -/
structure LinkState where
  status : LinkStatus
  lastSuccessDate : Option Nat
  lastErrorMessage : Option String
  accounts : List SyncAccount
  db : List StatementLine
  deriving DecidableEq, Repr

/-- Outcome of `action_fetch_transactions`: the success notification with
its transaction count, the raised blocking `UserError`, or the danger
notification returned for a non-`UserError` crash (lines 200-208). -/
inductive SyncOutcome
  | success (count : Nat)
  | raisedUserError (msg : String)
  | dangerNotification (msg : String)
  deriving DecidableEq, Repr

/-- Whether the caught exception of the outer `except` (line 193) is a
`UserError`. -/
inductive SyncErrorKind
  | userError
  | other
  deriving DecidableEq, Repr

/-- The outer `except` block of lines 193-208: record the error message,
flip the state to `error`, then re-raise a `UserError` or downgrade
anything else to a danger notification. -/
def syncExceptHandler (link : LinkState) (kind : SyncErrorKind) (msg : String) :
    LinkState × SyncOutcome :=
  let link2 := { link with lastErrorMessage := some msg, status := LinkStatus.error }
  match kind with
  | SyncErrorKind.userError => (link2, SyncOutcome.raisedUserError msg)
  | SyncErrorKind.other => (link2, SyncOutcome.dangerNotification ("System Error: " ++ msg))

/-- The per-account loop of lines 148-171.  Accounts with no fetched
transactions are skipped (line 155); a persistence failure is re-raised
as a `UserError` when a single target was requested, else logged and
skipped.  The error carries the database as already written by the
preceding accounts. -/
def syncLoop (targetSet : Bool) :
    List SyncAccount → List StatementLine → Nat →
      Except (String × List StatementLine) (List StatementLine × Nat)
  | [], db, total => Except.ok (db, total)
  | acc :: rest, db, total =>
    if acc.fetchedTxns.isEmpty then syncLoop targetSet rest db total
    else
      match customCreateLines db acc.journalRes acc.dbWriteFails acc.name acc.fetchedTxns with
      | Except.ok (created, db2) => syncLoop targetSet rest db2 (total + created.length)
      | Except.error msg =>
        if targetSet then
          Except.error ("Database Write Error on " ++ acc.name ++ ": " ++ msg, db)
        else syncLoop targetSet rest db total

/-- Shallow embedding of `action_fetch_transactions` (lines 121-208) for
a birbank link.  The state is first forced to `connected` (line 134);
the processed set is the one filtered account or all of them
(lines 140-146); after the loop the success fields are written only when
no target was requested or the link has exactly one account (line 174);
an escaped `UserError` goes through the outer handler. -/
def actionFetchTransactions (link : LinkState) (target : Option Nat) (now : Nat) :
    LinkState × SyncOutcome :=
  let link1 := if link.status ≠ LinkStatus.connected
               then { link with status := LinkStatus.connected } else link
  let toProcess :=
    match target with
    | some t => link.accounts.filter (fun a => a.accId == t)
    | none => link.accounts
  match syncLoop target.isSome toProcess link.db 0 with
  | Except.ok (db2, total) =>
    let link2 := { link1 with db := db2 }
    let link3 :=
      if target.isNone || link.accounts.length == 1 then
        { link2 with lastSuccessDate := some now, lastErrorMessage := none,
                     status := LinkStatus.connected }
      else link2
    (link3, SyncOutcome.success total)
  | Except.error (msg, db2) =>
    syncExceptHandler { link1 with db := db2 } SyncErrorKind.userError msg

/-! ## API client (`_fetch_odoo_fin_transactions`, lines 366-429) -/

/-- The `lcyAmount` field of a raw statement entry: absent (`.get`
defaults to `0`), a numeric value, or a value on which `float()` raises. -/
inductive NumField
  | missing
  | val (n : Int)
  | malformed
  deriving DecidableEq, Repr

/-- One entry of `responseData.operations.statementList`.  `trnDtParsed`
is the outcome of `datetime.strptime(trnDt, %b %d, %Y)`: `none` when the
field is missing or the parse raises (the inner `except` of lines
411-414 then falls back to today). -/
structure RawStatement where
  trnRefNo : Option String
  trnDtParsed : Option Nat
  purpose : Option String
  lcyAmount : NumField
  contrAccount : Option String
  deriving DecidableEq, Repr

/-- Python `a or b` over two optional strings, with `None` rendered as
`""` in the resulting dict value. -/
def pyOr (a b : Option String) : String :=
  match a with
  | some s => if s = "" then b.getD "" else s
  | none => b.getD ""

/-- Build one transaction dict from a raw statement entry (lines
409-422); `none` when `float(lcyAmount)` raises and aborts the batch. -/
def rawToTxn (today : Nat) (st : RawStatement) : Option Txn :=
  match st.lcyAmount with
  | NumField.malformed => none
  | NumField.missing =>
    some { ident := st.trnRefNo.getD "", date := st.trnDtParsed.getD today,
           amount := 0, paymentRef := pyOr st.purpose st.trnRefNo,
           partnerName := st.contrAccount.getD "" }
  | NumField.val n =>
    some { ident := st.trnRefNo.getD "", date := st.trnDtParsed.getD today,
           amount := n, paymentRef := pyOr st.purpose st.trnRefNo,
           partnerName := st.contrAccount.getD "" }

/-- Environment of one `_fetch_odoo_fin_transactions` call: the token
outcome, the three account-number sources of lines 382-387, the HTTP
round-trip outcome with its parsed statement list, and today. -/
structure FetchEnv where
  tokenRes : Except String String
  onlineIdentifier : String
  nameParsedAccNum : Option String
  accountNumberAttr : Option String
  httpRes : Except String (List RawStatement)
  today : Nat

/-- The account-number resolution of lines 382-390: the online
identifier, else the number split out of the name, else the
`account_number` attribute. -/
def resolveAccNum (env : FetchEnv) : String :=
  if env.onlineIdentifier ≠ "" then env.onlineIdentifier
  else
    match env.nameParsedAccNum with
    | some s => s
    | none => env.accountNumberAttr.getD ""

/-- The `try` block of `_fetch_odoo_fin_transactions` (lines 375-424):
any raising step surfaces as `Except.error`; a missing account number
returns an empty list without raising (line 391). -/
def fetchOdooFinTransactionsBody (env : FetchEnv) : Except String (List Txn) :=
  match env.tokenRes with
  | Except.error e => Except.error ("Auth Error: " ++ e)
  | Except.ok _ =>
    let accNum := resolveAccNum env
    if accNum = "" then Except.ok []
    else
      match env.httpRes with
      | Except.error e => Except.error e
      | Except.ok stmts =>
        match stmts.mapM (rawToTxn env.today) with
        | none => Except.error "could not convert value to float"
        | some txns => Except.ok txns

/-- Shallow embedding of `_fetch_odoo_fin_transactions` (lines 366-429):
the whole body is wrapped in `try/except Exception`, which logs and
returns an empty list (lines 426-429). -/
def fetchOdooFinTransactions (env : FetchEnv) : List Txn :=
  match fetchOdooFinTransactionsBody env with
  | Except.ok txns => txns
  | Except.error _ => []

/-! ## Concrete scenario data used by witnesses and counterexamples -/

/-- A transaction carrying identifier A. -/
def txA : Txn :=
  { ident := "A", date := 1, amount := 10, paymentRef := "ref-a", partnerName := "" }

/-- A transaction without identifier. -/
def txNoId : Txn :=
  { ident := "", date := 2, amount := 3, paymentRef := "ref-n", partnerName := "P" }

/-- First transaction of a duplicated pair sharing identifier X. -/
def dupTx1 : Txn :=
  { ident := "X", date := 1, amount := 5, paymentRef := "p", partnerName := "" }

/-- Second transaction of a duplicated pair sharing identifier X. -/
def dupTx2 : Txn :=
  { ident := "X", date := 2, amount := 7, paymentRef := "q", partnerName := "" }

/-- Scenario account 1: one transaction, journal 1 linked, write works. -/
def scenAcc1 : SyncAccount :=
  { accId := 1, name := "A1",
    fetchedTxns := [{ ident := "T1", date := 1, amount := 10, paymentRef := "r1", partnerName := "" }],
    journalRes := some 1, dbWriteFails := false }

/-- Scenario account 2: one transaction, journal 2 linked, the database
write fails. -/
def scenAcc2 : SyncAccount :=
  { accId := 2, name := "A2",
    fetchedTxns := [{ ident := "T2", date := 2, amount := 20, paymentRef := "r2", partnerName := "" }],
    journalRes := some 2, dbWriteFails := true }

/-- Scenario account 3: one transaction, journal 3 linked, write works. -/
def scenAcc3 : SyncAccount :=
  { accId := 3, name := "A3",
    fetchedTxns := [{ ident := "T3", date := 3, amount := 30, paymentRef := "r3", partnerName := "" }],
    journalRes := some 3, dbWriteFails := false }

/-- The three-account connection of the sync scenario, with no recorded
last success. -/
def scenLink : LinkState :=
  { status := LinkStatus.connected, lastSuccessDate := none,
    lastErrorMessage := some "old", accounts := [scenAcc1, scenAcc2, scenAcc3], db := [] }

/-- A fresh connection about to be initialized. -/
def initLink0 : InitLinkState :=
  { status := LinkStatus.draft, lastSuccessDate := none, lastErrorMessage := none,
    accounts := [], nextId := 1 }

/-- A fetch environment whose statement request fails with HTTP 500. -/
def failEnv : FetchEnv :=
  { tokenRes := Except.ok "tok", onlineIdentifier := "AZ01",
    nameParsedAccNum := none, accountNumberAttr := none,
    httpRes := Except.error "Bank Error (500)", today := 9 }

/-- An online-account record already present under the connection. -/
def recA0 : OnlineAccountRec :=
  { recId := 1, onlineIdentifier := "AZ01", name := "Old Name",
    balance := 5, accountNumber := "AZ01", currencyCode := "AZN" }

/-- A fetched remote account carrying the same identifier as `recA0`. -/
def accDataA : AccData :=
  { onlineIdentifier := "AZ01", name := "New Name", balance := 8,
    currencyCode := "AZN" }

/-- Invariant maintained by the upsert loop of
`action_initialize_connection`: the record list splits into the original
records — whose database ids and identifiers are pointwise unchanged —
followed by created records, whose ids are at least the initial fresh id
and whose identifiers are truthy and absent from the original records. -/
def UpsertInv (orig : List OnlineAccountRec) (nextId0 : Nat)
    (st : List OnlineAccountRec × Nat) : Prop :=
  nextId0 ≤ st.2 ∧
  ∃ pre post, st.1 = pre ++ post ∧
    pre.map (fun a => (a.recId, a.onlineIdentifier)) =
      orig.map (fun a => (a.recId, a.onlineIdentifier)) ∧
    ∀ c ∈ post, nextId0 ≤ c.recId ∧ c.onlineIdentifier ≠ "" ∧
      ∀ b ∈ orig, b.onlineIdentifier ≠ c.onlineIdentifier

/-! ## Lemmas about duplicate suppression -/

theorem mem_incomingIds {txs : List Txn} {s : String} :
    s ∈ incomingIds txs ↔ s ≠ "" ∧ ∃ t ∈ txs, t.ident = s := by
  simp only [incomingIds, List.mem_map, List.mem_filter, bne_iff_ne, ne_eq]
  constructor
  · rintro ⟨t, ⟨ht, hne⟩, rfl⟩
    exact ⟨hne, t, ht, rfl⟩
  · rintro ⟨hne, t, ht, rfl⟩
    exact ⟨t, ⟨ht, hne⟩, rfl⟩

theorem mem_existingIdsFor {db : List StatementLine} {j : Nat} {txs : List Txn} {s : String} :
    s ∈ existingIdsFor db j txs ↔
      (∃ l ∈ db, l.journalId = j ∧ l.ident = s) ∧ s ∈ incomingIds txs := by
  unfold existingIdsFor
  by_cases h : (incomingIds txs).isEmpty
  · rw [if_pos h]
    rw [List.isEmpty_iff] at h
    simp [h]
  · rw [if_neg h]
    simp only [existingIdsIn, List.mem_map, List.mem_filter, Bool.and_eq_true, beq_iff_eq,
      List.contains, List.elem_eq_mem, decide_eq_true_eq]
    constructor
    · rintro ⟨l, ⟨hl, hj, hmem⟩, rfl⟩
      exact ⟨⟨l, hl, hj, rfl⟩, hmem⟩
    · rintro ⟨⟨l, hl, hj, rfl⟩, hmem⟩
      exact ⟨l, ⟨hl, hj, hmem⟩, rfl⟩

theorem keepTxn_eq_true {ex : List String} {t : Txn} :
    keepTxn ex t = true ↔ (t.ident = "" ∨ t.ident ∉ ex) := by
  simp only [keepTxn, Bool.not_eq_true', Bool.and_eq_false_iff, bne_eq_false_iff_eq,
    List.contains, List.elem_eq_mem, decide_eq_false_iff_not]

theorem mem_toCreateLines {db : List StatementLine} {j : Nat} {txs : List Txn}
    {l : StatementLine} :
    l ∈ toCreateLines db j txs ↔
      ∃ t ∈ txs, keepTxn (existingIdsFor db j txs) t = true ∧ l = txnToLine j t := by
  simp only [toCreateLines, List.mem_map, List.mem_filter]
  constructor
  · rintro ⟨t, ⟨ht, hk⟩, rfl⟩
    exact ⟨t, ht, hk, rfl⟩
  · rintro ⟨t, ht, hk, rfl⟩
    exact ⟨t, ⟨ht, hk⟩, rfl⟩

theorem mem_persistedIdents {db : List StatementLine} {j : Nat} {s : String} :
    s ∈ persistedIdents db j ↔ s ≠ "" ∧ ∃ l ∈ db, l.journalId = j ∧ l.ident = s := by
  simp only [persistedIdents, List.mem_filter, List.mem_map, bne_iff_ne, ne_eq, beq_iff_eq]
  constructor
  · rintro ⟨⟨l, ⟨hl, hj⟩, rfl⟩, hne⟩
    exact ⟨hne, l, hl, hj, rfl⟩
  · rintro ⟨hne, l, hl, hj, rfl⟩
    exact ⟨⟨l, ⟨hl, hj⟩, rfl⟩, hne⟩

/-- On the success path (journal resolved, database write succeeding),
`customCreateLines` always returns the `to_create` list and the extended
database, even when `to_create` is empty. -/
theorem customCreateLines_ok_eq (db : List StatementLine) (j : Nat) (accName : String)
    (txs : List Txn) :
    customCreateLines db (some j) false accName txs =
      Except.ok (toCreateLines db j txs, db ++ toCreateLines db j txs) := by
  unfold customCreateLines
  by_cases h : (toCreateLines db j txs).isEmpty
  · rw [List.isEmpty_iff] at h
    simp [h]
  · simp [h]

/-- The membership characterisation of the persisted-identifier set after
a successful ingestion. -/
theorem mem_persistedIdents_after {db : List StatementLine} {j : Nat} {txs : List Txn}
    {s : String} :
    s ∈ persistedIdents (db ++ toCreateLines db j txs) j ↔
      s ∈ persistedIdents db j ∨ s ∈ incomingIds txs := by
  constructor
  · intro h
    rw [mem_persistedIdents] at h
    obtain ⟨hne, l, hl, hj, hid⟩ := h
    rcases List.mem_append.1 hl with hdb | hnew
    · exact Or.inl (mem_persistedIdents.2 ⟨hne, l, hdb, hj, hid⟩)
    · obtain ⟨t, ht, _, rfl⟩ := mem_toCreateLines.1 hnew
      exact Or.inr (mem_incomingIds.2 ⟨hne, t, ht, hid⟩)
  · intro h
    rcases h with hold | hinc
    · rw [mem_persistedIdents] at hold ⊢
      obtain ⟨hne, l, hl, hj, hid⟩ := hold
      exact ⟨hne, l, List.mem_append.2 (Or.inl hl), hj, hid⟩
    · obtain ⟨hne, t, ht, hid⟩ := mem_incomingIds.1 hinc
      by_cases hdb : s ∈ persistedIdents db j
      · rw [mem_persistedIdents] at hdb ⊢
        obtain ⟨_, l, hl, hj, hlid⟩ := hdb
        exact ⟨hne, l, List.mem_append.2 (Or.inl hl), hj, hlid⟩
      · have hkeep : keepTxn (existingIdsFor db j txs) t = true := by
          rw [keepTxn_eq_true]
          right
          intro hex
          obtain ⟨⟨l, hl, hj2, hlid⟩, _⟩ := mem_existingIdsFor.1 hex
          exact hdb (mem_persistedIdents.2 ⟨hne, l, hl, hj2, hlid.trans hid⟩)
        refine mem_persistedIdents.2 ⟨hne, txnToLine j t, ?_, rfl, hid⟩
        exact List.mem_append.2 (Or.inr (mem_toCreateLines.2 ⟨t, ht, hkeep, rfl⟩))

/-- Running the same batch against the database left by a first run
creates no line with a truthy identifier. -/
theorem toCreateLines_second_run_no_idents {db : List StatementLine} {j : Nat}
    {txs : List Txn} :
    (toCreateLines (db ++ toCreateLines db j txs) j txs).filter
      (fun l => l.ident != "") = [] := by
  rw [List.filter_eq_nil_iff]
  intro l hl
  obtain ⟨t, ht, hkeep, rfl⟩ := mem_toCreateLines.1 hl
  simp only [txnToLine, bne_iff_ne, ne_eq, Decidable.not_not]
  by_contra hne
  rcases keepTxn_eq_true.1 hkeep with h0 | hnotin
  · exact hne h0
  · apply hnotin
    have hmem : t.ident ∈ persistedIdents (db ++ toCreateLines db j txs) j :=
      mem_persistedIdents_after.2 (Or.inr (mem_incomingIds.2 ⟨hne, t, ht, rfl⟩))
    obtain ⟨_, l2, hl2, hj2, hlid⟩ := mem_persistedIdents.1 hmem
    rw [mem_existingIdsFor]
    exact ⟨⟨l2, hl2, hj2, hlid⟩, mem_incomingIds.2 ⟨hne, t, ht, rfl⟩⟩

/-- Claim C1: after a successful ingestion the persisted identifier set
of the resolved journal is the union of the previous set and the truthy
identifiers of the batch, and re-running the same batch on the resulting
state creates zero statement lines for identifier-bearing transactions. -/
theorem c1_ingestion_union_and_idempotence
    (db : List StatementLine) (j : Nat) (accName : String) (txs : List Txn)
    (created db2 : List StatementLine)
    (h : customCreateLines db (some j) false accName txs = Except.ok (created, db2)) :
    (∀ s, s ∈ persistedIdents db2 j ↔
        (s ∈ persistedIdents db j ∨ s ∈ incomingIds txs)) ∧
    (∀ created2 db3,
        customCreateLines db2 (some j) false accName txs = Except.ok (created2, db3) →
        created2.filter (fun l => l.ident != "") = []) := by
  rw [customCreateLines_ok_eq] at h
  simp only [Except.ok.injEq, Prod.mk.injEq] at h
  obtain ⟨hc, hdb⟩ := h
  subst hc
  subst hdb
  refine ⟨fun s => mem_persistedIdents_after, ?_⟩
  intro created2 db3 h2
  rw [customCreateLines_ok_eq] at h2
  simp only [Except.ok.injEq, Prod.mk.injEq] at h2
  obtain ⟨hc2, _⟩ := h2
  subst hc2
  exact toCreateLines_second_run_no_idents

/-- Witness for C1 at a one-transaction batch against an empty journal. -/
theorem c1_witness :
    customCreateLines [] (some 1) false "Acc" [txA] =
      Except.ok ([txnToLine 1 txA], [txnToLine 1 txA]) ∧
    ("A" ∈ persistedIdents [txnToLine 1 txA] 1 ↔
      ("A" ∈ persistedIdents [] 1 ∨ "A" ∈ incomingIds [txA])) := by
  refine ⟨rfl, ?_⟩
  exact (c1_ingestion_union_and_idempotence [] 1 "Acc" [txA]
    [txnToLine 1 txA] [txnToLine 1 txA] rfl).1 "A"

/-- The identifier-less part of `to_create` is exactly the image of the
identifier-less part of the batch. -/
theorem toCreateLines_filter_no_ident (db : List StatementLine) (j : Nat) (txs : List Txn) :
    (toCreateLines db j txs).filter (fun l => l.ident == "") =
      (txs.filter (fun t => t.ident == "")).map (txnToLine j) := by
  unfold toCreateLines
  rw [List.filter_map, List.filter_filter]
  congr 1
  apply List.filter_congr
  intro t _
  by_cases h : t.ident = ""
  · simp [txnToLine, keepTxn, h]
  · simp [txnToLine, keepTxn, h]

/-- Claim C2: transactions lacking an external identifier are always
created, on the first run and again on a re-run with the same batch. -/
theorem c2_missing_ident_always_created
    (db : List StatementLine) (j : Nat) (accName : String) (txs : List Txn)
    (created db2 : List StatementLine)
    (h : customCreateLines db (some j) false accName txs = Except.ok (created, db2)) :
    created.filter (fun l => l.ident == "") =
      (txs.filter (fun t => t.ident == "")).map (txnToLine j) ∧
    (∀ created2 db3,
        customCreateLines db2 (some j) false accName txs = Except.ok (created2, db3) →
        created2.filter (fun l => l.ident == "") =
          (txs.filter (fun t => t.ident == "")).map (txnToLine j)) := by
  rw [customCreateLines_ok_eq] at h
  simp only [Except.ok.injEq, Prod.mk.injEq] at h
  obtain ⟨hc, hdb⟩ := h
  subst hc
  subst hdb
  refine ⟨toCreateLines_filter_no_ident db j txs, ?_⟩
  intro created2 db3 h2
  rw [customCreateLines_ok_eq] at h2
  simp only [Except.ok.injEq, Prod.mk.injEq] at h2
  obtain ⟨hc2, _⟩ := h2
  subst hc2
  exact toCreateLines_filter_no_ident _ j txs

/-- Witness for C2 at a batch holding one identifier-less transaction. -/
theorem c2_witness :
    customCreateLines [] (some 1) false "Acc" [txNoId] =
      Except.ok ([txnToLine 1 txNoId], [txnToLine 1 txNoId]) ∧
    [txnToLine 1 txNoId].filter (fun l => l.ident == "") =
      ([txNoId].filter (fun t => t.ident == "")).map (txnToLine 1) := by
  refine ⟨rfl, ?_⟩
  exact (c2_missing_ident_always_created [] 1 "Acc" [txNoId]
    [txnToLine 1 txNoId] [txnToLine 1 txNoId] rfl).1

/-- Claim C10: duplicate suppression compares only against persisted
lines, never within the batch: for an identifier not yet persisted in the
journal, every transaction of the batch carrying it is created. -/
theorem c10_within_batch_duplicates_created
    (db : List StatementLine) (j : Nat) (accName : String) (txs : List Txn)
    (created db2 : List StatementLine) (s : String) (hs : s ≠ "")
    (hnew : ∀ l ∈ db, l.journalId = j → l.ident ≠ s)
    (h : customCreateLines db (some j) false accName txs = Except.ok (created, db2)) :
    created.filter (fun l => l.ident == s) =
      (txs.filter (fun t => t.ident == s)).map (txnToLine j) := by
  rw [customCreateLines_ok_eq] at h
  simp only [Except.ok.injEq, Prod.mk.injEq] at h
  obtain ⟨hc, hdb⟩ := h
  subst hc
  subst hdb
  unfold toCreateLines
  rw [List.filter_map, List.filter_filter]
  congr 1
  apply List.filter_congr
  intro t _
  by_cases h : t.ident = s
  · have hkeep : keepTxn (existingIdsFor db j txs) t = true := by
      rw [keepTxn_eq_true]
      right
      intro hex
      obtain ⟨⟨l, hl, hj2, hlid⟩, _⟩ := mem_existingIdsFor.1 hex
      exact hnew l hl hj2 (hlid.trans h)
    simp [txnToLine, h, hkeep]
  · simp [txnToLine, h]

/-- Witness for C10: a batch with two transactions sharing the fresh
identifier X creates both. -/
theorem c10_witness :
    customCreateLines [] (some 1) false "Acc" [dupTx1, dupTx2] =
      Except.ok ([txnToLine 1 dupTx1, txnToLine 1 dupTx2],
        [txnToLine 1 dupTx1, txnToLine 1 dupTx2]) ∧
    [txnToLine 1 dupTx1, txnToLine 1 dupTx2].filter (fun l => l.ident == "X") =
      ([dupTx1, dupTx2].filter (fun t => t.ident == "X")).map (txnToLine 1) := by
  refine ⟨rfl, ?_⟩
  exact c10_within_batch_duplicates_created [] 1 "Acc" [dupTx1, dupTx2]
    [txnToLine 1 dupTx1, txnToLine 1 dupTx2] [txnToLine 1 dupTx1, txnToLine 1 dupTx2]
    "X" (by decide) (by intro l hl; cases hl) rfl

/-! ## Token lifecycle claims -/

/-- Claim C3: with `force_refresh` false, a truthy cached token whose
expiry lies strictly beyond now plus 5 minutes is returned without a
login; in every other cache configuration a login is issued.  At the
boundary, an expiry of now plus 5 minutes 1 second reuses the cache and
an expiry of now plus 4 minutes 59 seconds logs in. -/
theorem c3_token_cache_shortcircuit :
    (∀ st now e login, st.token ≠ "" → st.expiry = some e → now + minutes 5 < e →
        getBirbankToken st now false login =
          { loginIssued := false, result := Except.ok (st, st.token) }) ∧
    (∀ st now e login, st.expiry = some e → ¬(st.token ≠ "" ∧ now + minutes 5 < e) →
        (getBirbankToken st now false login).loginIssued = true) ∧
    (∀ st now login, st.expiry = none →
        (getBirbankToken st now false login).loginIssued = true) ∧
    (∀ st now login, st.token ≠ "" → st.expiry = some (now + minutes 5 + 1) →
        (getBirbankToken st now false login).loginIssued = false) ∧
    (∀ st now login, st.expiry = some (now + minutes 5 - 1) →
        (getBirbankToken st now false login).loginIssued = true) := by
  refine ⟨?_, ?_, ?_, ?_, ?_⟩
  · intro st now e login htok hexp hlt
    rw [getBirbankToken.eq_def, if_pos]
    simp [cachedTokenValid, htok, hexp, hlt]
  · intro st now e login hexp hcond
    rw [getBirbankToken.eq_def, if_neg]
    intro hval
    simp only [Bool.not_false, Bool.true_and, cachedTokenValid, hexp, bne_iff_ne, ne_eq,
      Bool.and_eq_true, decide_eq_true_eq] at hval
    exact hcond ⟨hval.1, hval.2⟩
  · intro st now login hexp
    rw [getBirbankToken.eq_def, if_neg]
    simp [cachedTokenValid, hexp]
  · intro st now login htok hexp
    rw [getBirbankToken.eq_def, if_pos]
    simp [cachedTokenValid, htok, hexp]
  · intro st now login hexp
    rw [getBirbankToken.eq_def, if_neg]
    simp only [Bool.not_false, Bool.true_and, cachedTokenValid, hexp, Bool.and_eq_true,
      decide_eq_true_eq]
    rintro ⟨-, hlt⟩
    omega

/-- Witness for C3: a token expiring at second 400 is reused at second 99
(301 seconds margin). -/
theorem c3_witness :
    ({ token := "tok", expiry := some 400 } : TokenState).token ≠ "" ∧
    ({ token := "tok", expiry := some 400 } : TokenState).expiry = some 400 ∧
    99 + minutes 5 < 400 ∧
    getBirbankToken { token := "tok", expiry := some 400 } 99 false
        (LoginOutcome.failure "down") =
      { loginIssued := false,
        result := Except.ok ({ token := "tok", expiry := some 400 }, "tok") } := by
  refine ⟨by decide, rfl, by decide, ?_⟩
  exact c3_token_cache_shortcircuit.1 { token := "tok", expiry := some 400 } 99 400
    (LoginOutcome.failure "down") (by decide) rfl (by decide)

/-- Claim C4: whenever a login is performed and the body carries a truthy
`responseData.jwttoken`, that token is persisted with expiry exactly now
plus 50 minutes and returned; a transport failure or a body without the
token raises a `UserError`. -/
theorem c4_login_caches_token :
    (∀ st now force login tok, (getBirbankToken st now force login).loginIssued = true →
        login = LoginOutcome.response (some { jwttoken := some tok }) → tok ≠ "" →
        (getBirbankToken st now force login).result =
          Except.ok ({ token := tok, expiry := some (now + minutes 50) }, tok)) ∧
    (∀ st now force msg,
        (getBirbankToken st now force (LoginOutcome.failure msg)).loginIssued = true →
        (getBirbankToken st now force (LoginOutcome.failure msg)).result =
          Except.error ("Auth Error: " ++ msg)) ∧
    (∀ st now force rd,
        (getBirbankToken st now force (LoginOutcome.response rd)).loginIssued = true →
        ((rd.getD { jwttoken := none }).jwttoken = none ∨
          (rd.getD { jwttoken := none }).jwttoken = some "") →
        (getBirbankToken st now force (LoginOutcome.response rd)).result =
          Except.error "Auth Error: No token returned.") := by
  have hbranch : ∀ (st : TokenState) (now : Nat) (force : Bool) (login : LoginOutcome),
      (getBirbankToken st now force login).loginIssued = true →
      (!force && cachedTokenValid st now) = false := by
    intro st now force login h
    by_contra hcond
    rw [Bool.not_eq_false] at hcond
    rw [getBirbankToken.eq_def, if_pos hcond] at h
    exact Bool.false_ne_true h
  refine ⟨?_, ?_, ?_⟩
  · intro st now force login tok hiss hlog htok
    subst hlog
    rw [getBirbankToken.eq_def, if_neg (by rw [hbranch st now force _ hiss]; exact Bool.false_ne_true)]
    simp [Option.getD, htok]
  · intro st now force msg hiss
    rw [getBirbankToken.eq_def, if_neg (by rw [hbranch st now force _ hiss]; exact Bool.false_ne_true)]
  · intro st now force rd hiss hfalsy
    rw [getBirbankToken.eq_def,
      if_neg (by rw [hbranch st now force _ hiss]; exact Bool.false_ne_true)]
    rcases hfalsy with hnone | hempty
    · simp [hnone]
    · simp [hempty]

/-- Witness for C4: a forced login whose body carries `jwttoken = abc` at
second 7 caches the token with expiry second 3007. -/
theorem c4_witness :
    (getBirbankToken { token := "", expiry := none } 7 true
        (LoginOutcome.response (some { jwttoken := some "abc" }))).loginIssued = true ∧
    LoginOutcome.response (some { jwttoken := some "abc" }) =
      LoginOutcome.response (some { jwttoken := some "abc" }) ∧
    ("abc" : String) ≠ "" ∧
    (getBirbankToken { token := "", expiry := none } 7 true
        (LoginOutcome.response (some { jwttoken := some "abc" }))).result =
      Except.ok ({ token := "abc", expiry := some (7 + minutes 50) }, "abc") := by
  refine ⟨rfl, rfl, by decide, ?_⟩
  exact c4_login_caches_token.1 { token := "", expiry := none } 7 true
    (LoginOutcome.response (some { jwttoken := some "abc" })) "abc" rfl rfl (by decide)

/-! ## Sync failure policy -/

/-- With no single target requested, the per-account loop never escapes
with an error: every persistence failure is logged and skipped. -/
theorem syncLoop_false_ok (accounts : List SyncAccount) :
    ∀ db total, ∃ p, syncLoop false accounts db total = Except.ok p := by
  induction accounts with
  | nil => exact fun db total => ⟨(db, total), rfl⟩
  | cons acc rest ih =>
    intro db total
    by_cases hemp : acc.fetchedTxns.isEmpty
    · simpa only [syncLoop, if_pos hemp] using ih db total
    · cases hcc : customCreateLines db acc.journalRes acc.dbWriteFails acc.name
          acc.fetchedTxns with
      | ok p =>
        obtain ⟨created, db2⟩ := p
        simpa only [syncLoop, if_neg hemp, hcc] using ih db2 (total + created.length)
      | error msg =>
        simpa only [syncLoop, if_neg hemp, hcc, if_neg (by simp : ¬false = true)]
          using ih db total

/-- Claim C6: a failing account batch is skipped and the sync still
returns a success notification when no target account was requested; with
a target account the loop raises immediately and the action surfaces it
as a blocking `UserError`. -/
theorem c6_persist_failure_policy :
    (∀ link now, ∃ n,
        (actionFetchTransactions link none now).2 = SyncOutcome.success n) ∧
    (∀ acc rest db total msg, acc.fetchedTxns.isEmpty = false →
        customCreateLines db acc.journalRes acc.dbWriteFails acc.name acc.fetchedTxns =
          Except.error msg →
        syncLoop false (acc :: rest) db total = syncLoop false rest db total) ∧
    (∀ acc rest db total msg, acc.fetchedTxns.isEmpty = false →
        customCreateLines db acc.journalRes acc.dbWriteFails acc.name acc.fetchedTxns =
          Except.error msg →
        syncLoop true (acc :: rest) db total =
          Except.error ("Database Write Error on " ++ acc.name ++ ": " ++ msg, db)) ∧
    (∀ link t now msg db2,
        syncLoop true (link.accounts.filter (fun a => a.accId == t)) link.db 0 =
          Except.error (msg, db2) →
        (actionFetchTransactions link (some t) now).2 = SyncOutcome.raisedUserError msg ∧
        (actionFetchTransactions link (some t) now).1.status = LinkStatus.error ∧
        (actionFetchTransactions link (some t) now).1.lastErrorMessage = some msg) := by
  refine ⟨?_, ?_, ?_, ?_⟩
  · intro link now
    obtain ⟨⟨db2, total⟩, hok⟩ := syncLoop_false_ok link.accounts link.db 0
    exact ⟨total, by simp [actionFetchTransactions, hok]⟩
  · intro acc rest db total msg hemp hcc
    simp [syncLoop, hemp, hcc]
  · intro acc rest db total msg hemp hcc
    simp [syncLoop, hemp, hcc]
  · intro link t now msg db2 herr
    simp only [actionFetchTransactions, Option.isSome_some, herr]
    exact ⟨rfl, rfl, rfl⟩

/-- Witness for C6: the three-account scenario, untargeted, succeeds with
count 2 despite the failing second account, while targeting the failing
account raises. -/
theorem c6_witness :
    (∃ n, (actionFetchTransactions scenLink none 100).2 = SyncOutcome.success n) ∧
    ((actionFetchTransactions scenLink (some 2) 100).2 =
        SyncOutcome.raisedUserError "Database Write Error on A2: Database Write Failed" ∧
      (actionFetchTransactions scenLink (some 2) 100).1.status = LinkStatus.error ∧
      (actionFetchTransactions scenLink (some 2) 100).1.lastErrorMessage =
        some "Database Write Error on A2: Database Write Failed") := by
  constructor
  · exact c6_persist_failure_policy.1 scenLink 100
  · exact c6_persist_failure_policy.2.2.2 scenLink 2 100
      "Database Write Error on A2: Database Write Failed" [] rfl

/-! ## Error bookkeeping on the connection -/

/-- Counterexample to C8: a failing account listing during
initialization records the error message but leaves the status at
`draft` instead of flipping it to `error`. -/
theorem c8_counterexample :
    (actionInitConnection initLink0 (Except.ok "tok")
        (Except.error "Fetch Error: down") 0).1.status ≠ LinkStatus.error ∧
    (actionInitConnection initLink0 (Except.ok "tok")
        (Except.error "Fetch Error: down") 0).1.lastErrorMessage =
      some "Fetch Error: down" ∧
    (actionInitConnection initLink0 (Except.ok "tok")
        (Except.error "Fetch Error: down") 0).2 =
      InitOutcome.raisedUserError "Connection Failed: Fetch Error: down" := by
  refine ⟨?_, rfl, rfl⟩
  intro h
  exact LinkStatus.noConfusion h

/-- Claim C8 as amended: every error during sync records the last-error
message and flips the status to `error`, even on the downgraded
notification path; an error during initialization records the last-error
message and raises a blocking `UserError`, but leaves the status field
unchanged. -/
theorem c8_amended_error_bookkeeping :
    (∀ link kind msg,
        (syncExceptHandler link kind msg).1.status = LinkStatus.error ∧
        (syncExceptHandler link kind msg).1.lastErrorMessage = some msg) ∧
    (∀ link tok e now,
        (actionInitConnection link (Except.ok tok) (Except.error e) now).1.lastErrorMessage =
          some e ∧
        (actionInitConnection link (Except.ok tok) (Except.error e) now).1.status =
          link.status ∧
        (actionInitConnection link (Except.ok tok) (Except.error e) now).2 =
          InitOutcome.raisedUserError ("Connection Failed: " ++ e)) ∧
    (∀ link e accountsRes now,
        (actionInitConnection link (Except.error e) accountsRes now).1.lastErrorMessage =
          some e ∧
        (actionInitConnection link (Except.error e) accountsRes now).1.status =
          link.status ∧
        (actionInitConnection link (Except.error e) accountsRes now).2 =
          InitOutcome.raisedUserError ("Connection Failed: " ++ e)) := by
  refine ⟨?_, ?_, ?_⟩
  · intro link kind msg
    cases kind <;> exact ⟨rfl, rfl⟩
  · intro link tok e now
    exact ⟨rfl, rfl, rfl⟩
  · intro link e accountsRes now
    exact ⟨rfl, rfl, rfl⟩

/-- Counterexample to C9: in the three-account scenario with no target
and a failing second account, the last-success timestamp IS updated (from
unset to the current time), against the claimed non-update. -/
theorem c9_counterexample :
    scenLink.lastSuccessDate = none ∧
    (actionFetchTransactions scenLink none 100).1.lastSuccessDate = some 100 := by
  exact ⟨rfl, rfl⟩

/-- Claim C9 as amended: in the three-account scenario the first and
third batches are persisted, the notification reports success with the
partial count 2, and — because no target was requested (rule (a) of the
success-update condition) — the last-success timestamp is updated and the
error message cleared. -/
theorem c9_amended_partial_sync :
    (actionFetchTransactions scenLink none 100).2 = SyncOutcome.success 2 ∧
    (actionFetchTransactions scenLink none 100).1.db =
      [txnToLine 1 (scenAcc1.fetchedTxns.headD txA),
       txnToLine 3 (scenAcc3.fetchedTxns.headD txA)] ∧
    (actionFetchTransactions scenLink none 100).1.lastSuccessDate = some 100 ∧
    (actionFetchTransactions scenLink none 100).1.lastErrorMessage = none ∧
    (actionFetchTransactions scenLink none 100).1.status = LinkStatus.connected := by
  exact ⟨rfl, rfl, rfl, rfl, rfl⟩

/-! ## API client error containment -/

/-- Claim C7: the transaction-listing operation never propagates an
exception: whenever its body raises, the caller receives an empty list,
and otherwise the parsed transactions. -/
theorem c7_fetch_never_raises :
    (∀ env e, fetchOdooFinTransactionsBody env = Except.error e →
        fetchOdooFinTransactions env = []) ∧
    (∀ env txns, fetchOdooFinTransactionsBody env = Except.ok txns →
        fetchOdooFinTransactions env = txns) := by
  constructor
  · intro env e h
    simp [fetchOdooFinTransactions, h]
  · intro env txns h
    simp [fetchOdooFinTransactions, h]

/-- Witness for C7: the HTTP-500 environment returns the empty list. -/
theorem c7_witness :
    fetchOdooFinTransactionsBody failEnv = Except.error "Bank Error (500)" ∧
    fetchOdooFinTransactions failEnv = [] := by
  refine ⟨rfl, ?_⟩
  exact c7_fetch_never_raises.1 failEnv "Bank Error (500)" rfl

/-! ## Upsert invariants of the reconciler -/

theorem existingAccountsLookup_some {accounts : List OnlineAccountRec} {i : String}
    {b : OnlineAccountRec} (h : existingAccountsLookup accounts i = some b) :
    b ∈ accounts ∧ b.onlineIdentifier = i ∧ i ≠ "" := by
  unfold existingAccountsLookup at h
  have hmem := List.mem_of_find?_eq_some h
  have hpred := List.find?_some h
  rw [List.mem_reverse, List.mem_filter] at hmem
  obtain ⟨hmem, htr⟩ := hmem
  rw [beq_iff_eq] at hpred
  rw [bne_iff_ne] at htr
  exact ⟨hmem, hpred, hpred ▸ htr⟩

theorem existingAccountsLookup_none {accounts : List OnlineAccountRec} {i : String}
    (h : existingAccountsLookup accounts i = none) (hi : i ≠ "") :
    ∀ b ∈ accounts, b.onlineIdentifier ≠ i := by
  unfold existingAccountsLookup at h
  rw [List.find?_eq_none] at h
  intro b hb heq
  have hbmem : b ∈ (accounts.filter (fun a => a.onlineIdentifier != "")).reverse := by
    rw [List.mem_reverse, List.mem_filter]
    exact ⟨hb, by rw [bne_iff_ne, heq]; exact hi⟩
  exact h b hbmem (by rw [beq_iff_eq]; exact heq)

theorem upsertStep_preserves_inv {orig : List OnlineAccountRec} {nextId0 : Nat}
    (hnodup : (orig.map (fun a => a.recId)).Nodup)
    (hfresh : ∀ a ∈ orig, a.recId < nextId0)
    {st : List OnlineAccountRec × Nat} (hinv : UpsertInv orig nextId0 st)
    (d : AccData) :
    UpsertInv orig nextId0 (upsertStep (existingAccountsLookup orig) st d) := by
  obtain ⟨hle, pre, post, hsplit, hpre, hpost⟩ := hinv
  unfold upsertStep
  by_cases hid : d.onlineIdentifier = ""
  · rw [if_pos hid]
    exact ⟨hle, pre, post, hsplit, hpre, hpost⟩
  · rw [if_neg hid]
    cases hlk : existingAccountsLookup orig d.onlineIdentifier with
    | none =>
      dsimp only
      refine ⟨by omega,
        pre,
        post ++ [{ recId := st.2, onlineIdentifier := d.onlineIdentifier,
                   name := d.name, balance := d.balance,
                   accountNumber := d.onlineIdentifier,
                   currencyCode := d.currencyCode }], ?_, hpre, ?_⟩
      · rw [hsplit, List.append_assoc]
      · intro c hc
        rcases List.mem_append.1 hc with hc | hc
        · exact hpost c hc
        · rw [List.mem_singleton] at hc
          subst hc
          exact ⟨hle, hid, fun b hb => existingAccountsLookup_none hlk hid b hb⟩
    | some b =>
      dsimp only
      obtain ⟨hbmem, hbid, -⟩ := existingAccountsLookup_some hlk
      have hukey : ∀ a ∈ pre,
          ((if a.recId = b.recId then applyVals d a else a).recId,
            (if a.recId = b.recId then applyVals d a else a).onlineIdentifier) =
            (a.recId, a.onlineIdentifier) := by
        intro a ha
        by_cases hab : a.recId = b.recId
        · rw [if_pos hab]
          have hkeymem : (a.recId, a.onlineIdentifier) ∈
              orig.map (fun x => (x.recId, x.onlineIdentifier)) := by
            rw [← hpre]
            exact List.mem_map_of_mem _ ha
          obtain ⟨b2, hb2, hb2key⟩ := List.mem_map.1 hkeymem
          have hb2rec : b2.recId = a.recId := congrArg Prod.fst hb2key
          have hb2eqb : b2 = b :=
            List.inj_on_of_nodup_map hnodup hb2 hbmem (by rw [hb2rec, hab])
          have haid : a.onlineIdentifier = d.onlineIdentifier := by
            have : b2.onlineIdentifier = a.onlineIdentifier := congrArg Prod.snd hb2key
            rw [← this, hb2eqb, hbid]
          simp [applyVals, haid]
        · rw [if_neg hab]
      refine ⟨hle, pre.map (fun a => if a.recId = b.recId then applyVals d a else a),
        post, ?_, ?_, hpost⟩
      · rw [hsplit, List.map_append]
        dsimp only
        congr 1
        have hpostfix : ∀ c ∈ post,
            (if c.recId = b.recId then applyVals d c else c) = c := by
          intro c hc
          have hcfresh := (hpost c hc).1
          have hbsmall := hfresh b hbmem
          rw [if_neg (by omega)]
        calc post.map (fun a => if a.recId = b.recId then applyVals d a else a)
            = post.map id := List.map_congr_left hpostfix
          _ = post := List.map_id post
      · rw [List.map_map, ← hpre]
        exact List.map_congr_left hukey

theorem upsertAccounts_inv (orig : List OnlineAccountRec) (nextId0 : Nat)
    (hnodup : (orig.map (fun a => a.recId)).Nodup)
    (hfresh : ∀ a ∈ orig, a.recId < nextId0) (fetched : List AccData) :
    UpsertInv orig nextId0 (upsertAccounts orig fetched nextId0) := by
  have hstep : ∀ (fs : List AccData) (st : List OnlineAccountRec × Nat),
      UpsertInv orig nextId0 st →
      UpsertInv orig nextId0 (fs.foldl (upsertStep (existingAccountsLookup orig)) st) := by
    intro fs
    induction fs with
    | nil => exact fun st h => h
    | cons d rest ih =>
      intro st h
      exact ih _ (upsertStep_preserves_inv hnodup hfresh h d)
  refine hstep fetched (orig, nextId0)
    ⟨Nat.le_refl _, orig, [], (List.append_nil orig).symm, rfl, ?_⟩
  intro c hc
  cases hc

/-- Claim C5: re-running initialization updates records whose identifier
already exists (the record count for such an identifier is unchanged, so
no duplicate is created), creates records only for identifiers not
previously present, and skips fetched entries lacking an identifier
without failing. -/
theorem c5_upsert_keyed_by_identifier
    (orig : List OnlineAccountRec) (fetched : List AccData) (nextId0 : Nat)
    (hnodup : (orig.map (fun a => a.recId)).Nodup)
    (hfresh : ∀ a ∈ orig, a.recId < nextId0) :
    (∀ i, i ≠ "" → (∃ a ∈ orig, a.onlineIdentifier = i) →
        countIdent (upsertAccounts orig fetched nextId0).1 i = countIdent orig i) ∧
    (∀ a ∈ (upsertAccounts orig fetched nextId0).1,
        (∀ b ∈ orig, b.recId ≠ a.recId) →
        a.onlineIdentifier ≠ "" ∧
        ∀ b ∈ orig, b.onlineIdentifier ≠ a.onlineIdentifier) ∧
    (∀ (lookup : String → Option OnlineAccountRec) (st : List OnlineAccountRec × Nat)
        (d : AccData), d.onlineIdentifier = "" → upsertStep lookup st d = st) := by
  obtain ⟨hle, pre, post, hsplit, hpre, hpost⟩ :=
    upsertAccounts_inv orig nextId0 hnodup hfresh fetched
  refine ⟨?_, ?_, ?_⟩
  · rintro i hi ⟨a0, ha0, ha0i⟩
    unfold countIdent
    rw [hsplit, List.filter_append, List.length_append]
    have hpostzero : post.filter (fun a => a.onlineIdentifier == i) = [] := by
      rw [List.filter_eq_nil_iff]
      intro c hc hci
      rw [beq_iff_eq] at hci
      exact (hpost c hc).2.2 a0 ha0 (by rw [ha0i, ← hci])
    rw [hpostzero]
    simp only [List.length_nil, Nat.add_zero]
    have hcnt : ∀ (l : List OnlineAccountRec),
        (l.filter (fun a => a.onlineIdentifier == i)).length =
          (l.map (fun a => a.onlineIdentifier)).countP (fun s => s == i) := by
      intro l
      rw [← List.countP_eq_length_filter, List.countP_map]
      rfl
    have hident : pre.map (fun a => a.onlineIdentifier) =
        orig.map (fun a => a.onlineIdentifier) := by
      have h2 := congrArg (List.map Prod.snd) hpre
      simpa [List.map_map, Function.comp] using h2
    rw [hcnt pre, hcnt orig, hident]
  · intro a ha hnew
    rw [hsplit] at ha
    rcases List.mem_append.1 ha with ha | ha
    · exfalso
      have hkeymem : (a.recId, a.onlineIdentifier) ∈
          orig.map (fun x => (x.recId, x.onlineIdentifier)) := by
        rw [← hpre]
        exact List.mem_map_of_mem _ ha
      obtain ⟨b2, hb2, hb2key⟩ := List.mem_map.1 hkeymem
      exact hnew b2 hb2 (congrArg Prod.fst hb2key)
    · exact ⟨(hpost a ha).2.1, (hpost a ha).2.2⟩
  · intro lookup st d hd
    unfold upsertStep
    rw [if_pos hd]

/-- Witness for C5: one pre-existing record with identifier AZ01 and a
fetched list carrying the same identifier leave exactly one record with
that identifier. -/
theorem c5_witness :
    countIdent (upsertAccounts [recA0] [accDataA] 2).1 "AZ01" =
      countIdent [recA0] "AZ01" := by
  refine (c5_upsert_keyed_by_identifier [recA0] [accDataA] 2 ?_ ?_).1 "AZ01"
    (by decide) ⟨recA0, List.mem_singleton.2 rfl, rfl⟩
  · simp [recA0]
  · intro a ha
    rw [List.mem_singleton] at ha
    subst ha
    decide
